import Mathlib

/-!
Verification of the Auth_Agent OAuth 2.1 authorization server core.

The definitions below are a shallow embedding of the TypeScript source:
the in-memory store (`src/db/store.ts`, `src/db/types.ts`), the crypto
helpers (`src/lib/crypto.ts`), and the HTTP handlers
(`src/oauth/token.ts`, `src/oauth/checkStatus.ts`, `src/oauth/introspect.ts`,
`src/oauth/revoke.ts`, `src/api/agentAuthenticate.ts`).  Time is modelled
as natural-number milliseconds (`Date.now()`), JavaScript `Map`s as
association lists with unique keys, and external cryptographic primitives
(bcrypt comparison, SHA-256/base64url, JWT sign/verify) as explicit
function parameters, since their implementations live in Node libraries
outside the repository.
-/

namespace AuthAgent

/-- Configuration constants from `lib/constants.ts` (seconds). -/
def ACCESS_TOKEN_EXPIRES_IN : Nat := 60 * 60

/-- Refresh-token lifetime from `lib/constants.ts` (seconds): 30 days. -/
def REFRESH_TOKEN_EXPIRES_IN : Nat := 30 * 24 * 60 * 60

/-- The status union of `AuthRequest.status` in `src/db/types.ts`. -/
inductive AuthStatus where
  | pending
  | authenticated
  | completed
  | expired
  | error
deriving DecidableEq, Repr

/-- String rendering of a status, used in error descriptions
(`Auth request is already ...`). -/
def AuthStatus.toText : AuthStatus → String
  | .pending => "pending"
  | .authenticated => "authenticated"
  | .completed => "completed"
  | .expired => "expired"
  | .error => "error"

/-- `Agent` record from `src/db/types.ts`. -/
structure Agent where
  agent_id : String
  agent_secret_hash : String
  user_email : String
  user_name : String
  created_at : Nat
deriving DecidableEq, Repr

/-- `Client` record from `src/db/types.ts`. -/
structure Client where
  client_id : String
  client_secret_hash : String
  client_name : String
  allowed_redirect_uris : List String
  allowed_grant_types : List String
  created_at : Nat
deriving DecidableEq, Repr

/-- `AuthRequest` record from `src/db/types.ts`; optional fields are
`Option`. -/
structure AuthRequest where
  request_id : String
  client_id : String
  redirect_uri : String
  state : String
  code_challenge : String
  code_challenge_method : String
  scope : String
  code : Option String := none
  agent_id : Option String := none
  model : Option String := none
  status : AuthStatus
  error : Option String := none
  created_at : Nat
  expires_at : Nat
deriving DecidableEq, Repr

/-- `Token` record from `src/db/types.ts`. -/
structure Token where
  token_id : String
  access_token : String
  refresh_token : Option String := none
  agent_id : String
  client_id : String
  model : String
  scope : String
  access_token_expires_at : Nat
  refresh_token_expires_at : Option Nat := none
  created_at : Nat
  revoked : Bool
deriving DecidableEq, Repr

/-- `RefreshTokenEntry` record from `src/db/types.ts`. -/
structure RefreshTokenEntry where
  refresh_token : String
  token_id : String
  agent_id : String
  client_id : String
  expires_at : Nat
  revoked : Bool
deriving DecidableEq, Repr

/-- JavaScript truthiness of an optional string: absent and empty are
falsy. -/
def otruthy : Option String → Bool
  | none => false
  | some s => !(s == "")

/-- JavaScript `a || b` on an optional string with a default. -/
def orDefault (o : Option String) (d : String) : String :=
  match o with
  | none => d
  | some s => if s == "" then d else s

/-- Lookup in an association list, modelling `Map.get`. -/
def lookupKV (k : String) : List (String × α) → Option α
  | [] => none
  | (k0, v0) :: rest => if k0 = k then some v0 else lookupKV k rest

/-- Insert-or-replace in an association list, modelling `Map.set`
(an existing key keeps its position; a new key is appended). -/
def setKV (k : String) (v : α) : List (String × α) → List (String × α)
  | [] => [(k, v)]
  | (k0, v0) :: rest => if k0 = k then (k, v) :: rest else (k0, v0) :: setKV k v rest

/-- Key removal, modelling `Map.delete` on a unique-key map. -/
def eraseKV (k : String) : List (String × α) → List (String × α)
  | [] => []
  | (k0, v0) :: rest => if k0 = k then eraseKV k rest else (k0, v0) :: eraseKV k rest

/-- The linear scan of `getTokenByAccessToken` in `src/db/store.ts`:
first token (in insertion order) whose `access_token` matches. -/
def findTokenByAccess (access_token : String) : List (String × Token) → Option Token
  | [] => none
  | (_, t) :: rest =>
      if t.access_token = access_token then some t else findTokenByAccess access_token rest

/-- The `InMemoryStore` of `src/db/store.ts`: one `Map` per entity plus
the `code → request_id` map. -/
structure Store where
  agents : List (String × Agent) := []
  clients : List (String × Client) := []
  authRequests : List (String × AuthRequest) := []
  tokens : List (String × Token) := []
  refreshTokens : List (String × RefreshTokenEntry) := []
  authorizationCodes : List (String × String) := []
deriving DecidableEq, Repr

namespace Store

/-- `db.getAgent`. -/
def getAgent (st : Store) (agent_id : String) : Option Agent :=
  lookupKV agent_id st.agents

/-- `db.getClient`. -/
def getClient (st : Store) (client_id : String) : Option Client :=
  lookupKV client_id st.clients

/-- `db.getAuthRequest`. -/
def getAuthRequest (st : Store) (request_id : String) : Option AuthRequest :=
  lookupKV request_id st.authRequests

/-- `db.updateAuthRequest`: merge an update into the stored record when
present; a missing id leaves the store unchanged. The partial-object
merge of the source is modelled by the update function `f`. -/
def updateAuthRequest (st : Store) (request_id : String) (f : AuthRequest → AuthRequest) : Store :=
  match lookupKV request_id st.authRequests with
  | none => st
  | some r => { st with authRequests := setKV request_id (f r) st.authRequests }

/-- `db.deleteAuthRequest`. -/
def deleteAuthRequest (st : Store) (request_id : String) : Store :=
  { st with authRequests := eraseKV request_id st.authRequests }

/-- `db.storeAuthCode`. -/
def storeAuthCode (st : Store) (code request_id : String) : Store :=
  { st with authorizationCodes := setKV code request_id st.authorizationCodes }

/-- `db.getAuthCodeRequestId`. -/
def getAuthCodeRequestId (st : Store) (code : String) : Option String :=
  lookupKV code st.authorizationCodes

/-- `db.deleteAuthCode`. -/
def deleteAuthCode (st : Store) (code : String) : Store :=
  { st with authorizationCodes := eraseKV code st.authorizationCodes }

/-- `db.createToken`. -/
def createToken (st : Store) (t : Token) : Store :=
  { st with tokens := setKV t.token_id t st.tokens }

/-- `db.getToken`. -/
def getToken (st : Store) (token_id : String) : Option Token :=
  lookupKV token_id st.tokens

/-- `db.getTokenByAccessToken`. -/
def getTokenByAccessToken (st : Store) (access_token : String) : Option Token :=
  findTokenByAccess access_token st.tokens

/-- `db.revokeToken`: flip `revoked` when the id resolves. -/
def revokeToken (st : Store) (token_id : String) : Store :=
  match lookupKV token_id st.tokens with
  | none => st
  | some t => { st with tokens := setKV token_id { t with revoked := true } st.tokens }

/-- `db.revokeTokenByAccessToken`. -/
def revokeTokenByAccessToken (st : Store) (access_token : String) : Store :=
  match findTokenByAccess access_token st.tokens with
  | none => st
  | some t => { st with tokens := setKV t.token_id { t with revoked := true } st.tokens }

/-- `db.createRefreshToken`. -/
def createRefreshToken (st : Store) (e : RefreshTokenEntry) : Store :=
  { st with refreshTokens := setKV e.refresh_token e st.refreshTokens }

/-- `db.getRefreshToken`. -/
def getRefreshToken (st : Store) (refresh_token : String) : Option RefreshTokenEntry :=
  lookupKV refresh_token st.refreshTokens

/-- `db.revokeRefreshToken`. -/
def revokeRefreshToken (st : Store) (refresh_token : String) : Store :=
  match lookupKV refresh_token st.refreshTokens with
  | none => st
  | some e =>
      { st with refreshTokens := setKV refresh_token { e with revoked := true } st.refreshTokens }

/-- `db.cleanupExpired`, the 5-minute sweeper: drop auth requests and
refresh entries whose `expires_at` is in the past. -/
def cleanupExpired (st : Store) (now : Nat) : Store :=
  { st with
    authRequests := st.authRequests.filter (fun p => !(decide (p.2.expires_at < now)))
    refreshTokens := st.refreshTokens.filter (fun p => !(decide (p.2.expires_at < now))) }

end Store

/-- `validatePKCE` from `src/lib/crypto.ts`.  The Node primitive
`base64url(SHA256(·))` is abstracted as the parameter
`sha256base64url`. -/
def validatePKCE (sha256base64url : String → String)
    (codeVerifier codeChallenge method : String) : Bool :=
  if method ≠ "S256" then false
  else sha256base64url codeVerifier == codeChallenge

/-- Decoded claims of an access-token JWT (`JWTPayload` in
`src/lib/jwt.ts`); `iat` and `exp` are in seconds. -/
structure JWTPayload where
  sub : String
  client_id : String
  model : String
  scope : String
  iat : Nat
  exp : Nat
  iss : String
deriving DecidableEq, Repr

/-- Request body of `POST /api/agent/authenticate`. -/
structure AuthenticateParams where
  request_id : Option String := none
  agent_id : Option String := none
  agent_secret : Option String := none
  model : Option String := none
deriving DecidableEq, Repr

/-- Response of the agent-authenticate endpoint: a `success:false` JSON
error with an HTTP status, or the `success:true` body. -/
inductive AuthenticateResponse where
  | failure (http : Nat) (error errorDescription : String)
  | success
deriving DecidableEq, Repr

/-- `agentAuthenticateHandler` from `src/api/agentAuthenticate.ts`.
`verifySecret` abstracts the bcrypt comparison, `now` is `Date.now()`,
and `freshCode` is the value produced by `generateAuthCode()`. -/
def agentAuthenticateHandler (verifySecret : String → String → Bool) (now : Nat)
    (freshCode : String) (p : AuthenticateParams) (st : Store) :
    AuthenticateResponse × Store :=
  if !(otruthy p.request_id && otruthy p.agent_id && otruthy p.agent_secret && otruthy p.model) then
    (.failure 400 "invalid_request"
      "Missing required fields: request_id, agent_id, agent_secret, model", st)
  else
    let request_id := p.request_id.getD ""
    let agent_id := p.agent_id.getD ""
    let agent_secret := p.agent_secret.getD ""
    let model := p.model.getD ""
    match st.getAuthRequest request_id with
    | none => (.failure 404 "invalid_request" "Auth request not found or expired", st)
    | some authRequest =>
      if authRequest.expires_at < now then
        (.failure 400 "request_expired" "Auth request has expired",
          st.updateAuthRequest request_id
            (fun r => { r with status := .expired, error := some "Auth request expired" }))
      else if authRequest.status ≠ .pending then
        (.failure 400 "invalid_request"
          ("Auth request is already " ++ authRequest.status.toText), st)
      else
        match st.getAgent agent_id with
        | none =>
            (.failure 401 "invalid_client" "Agent not found",
              st.updateAuthRequest request_id
                (fun r => { r with status := .error, error := some "Invalid agent credentials" }))
        | some agent =>
          if !(verifySecret agent_secret agent.agent_secret_hash) then
            (.failure 401 "invalid_client" "Invalid agent credentials",
              st.updateAuthRequest request_id
                (fun r => { r with status := .error, error := some "Invalid agent credentials" }))
          else
            let st1 := st.updateAuthRequest request_id
              (fun r => { r with agent_id := some agent_id, model := some model,
                                 code := some freshCode, status := .authenticated })
            (.success, st1.storeAuthCode freshCode request_id)

/-- Response of `GET /api/check-status`: a JSON error with HTTP status,
or one of the three status documents of `checkStatusHandler`. -/
inductive CheckStatusResponse where
  | httpError (http : Nat) (error errorDescription : String)
  | pendingDoc
  | errorDoc (error : String)
  | authenticatedDoc (code state redirect_uri : String)
deriving DecidableEq, Repr

/-- `checkStatusHandler` from `src/oauth/checkStatus.ts`. -/
def checkStatusHandler (now : Nat) (request_id : Option String) (st : Store) :
    CheckStatusResponse × Store :=
  if !(otruthy request_id) then
    (.httpError 400 "invalid_request" "Missing request_id parameter", st)
  else
    let rid := request_id.getD ""
    match st.getAuthRequest rid with
    | none => (.httpError 404 "not_found" "Auth request not found", st)
    | some authRequest =>
      if authRequest.expires_at < now ∧ authRequest.status = .pending then
        (.errorDoc "request_expired",
          st.updateAuthRequest rid
            (fun r => { r with status := .expired, error := some "Auth request expired" }))
      else if authRequest.status = .authenticated ∧ otruthy authRequest.code then
        (.authenticatedDoc (authRequest.code.getD "") authRequest.state authRequest.redirect_uri,
          st.updateAuthRequest rid (fun r => { r with status := .completed }))
      else if authRequest.status = .error then
        (.errorDoc (orDefault authRequest.error "Authentication failed"), st)
      else
        (.pendingDoc, st)

/-- Parameters of the `authorization_code` grant at `POST /token`. -/
structure CodeGrantParams where
  code : Option String := none
  code_verifier : Option String := none
  client_id : Option String := none
  client_secret : Option String := none
deriving DecidableEq, Repr

/-- Parameters of the `refresh_token` grant at `POST /token`. -/
structure RefreshGrantParams where
  refresh_token : Option String := none
  client_id : Option String := none
  client_secret : Option String := none
deriving DecidableEq, Repr

/-- Token-endpoint response: a JSON error with HTTP status, or the
RFC 6749 token response body. -/
inductive TokenResponse where
  | err (http : Nat) (error errorDescription : String)
  | ok (access_token token_type : String) (expires_in : Nat) (refresh_token scope : String)
deriving DecidableEq, Repr

/-- `handleAuthorizationCodeGrant` from `src/oauth/token.ts`.
`verifySecret` abstracts bcrypt, `sha256url` the PKCE hash; `now` is
`Date.now()`, and `tokenId`, `accessToken`, `refreshTokenValue` are the
freshly generated identifier, JWT and opaque refresh token. -/
def handleAuthorizationCodeGrant (verifySecret : String → String → Bool)
    (sha256url : String → String) (now : Nat)
    (tokenId accessToken refreshTokenValue : String)
    (p : CodeGrantParams) (st : Store) : TokenResponse × Store :=
  if !(otruthy p.code && otruthy p.code_verifier && otruthy p.client_id && otruthy p.client_secret) then
    (.err 400 "invalid_request" "Missing required parameters for authorization_code grant", st)
  else
    let code := p.code.getD ""
    let code_verifier := p.code_verifier.getD ""
    let client_id := p.client_id.getD ""
    let client_secret := p.client_secret.getD ""
    match st.getClient client_id with
    | none => (.err 401 "invalid_client" "Client not found", st)
    | some client =>
      if !(verifySecret client_secret client.client_secret_hash) then
        (.err 401 "invalid_client" "Invalid client credentials", st)
      else
        match st.getAuthCodeRequestId code with
        | none => (.err 400 "invalid_grant" "Invalid or expired authorization code", st)
        | some requestId =>
          match st.getAuthRequest requestId with
          | none => (.err 400 "invalid_grant" "Invalid authorization code", st)
          | some authRequest =>
            if authRequest.code ≠ some code then
              (.err 400 "invalid_grant" "Invalid authorization code", st)
            else if authRequest.client_id ≠ client_id then
              (.err 400 "invalid_grant" "Client ID mismatch", st)
            else if !(validatePKCE sha256url code_verifier
                        authRequest.code_challenge authRequest.code_challenge_method) then
              (.err 400 "invalid_grant" "Invalid PKCE code_verifier", st)
            else if authRequest.expires_at < now then
              (.err 400 "invalid_grant" "Authorization code expired",
                (st.deleteAuthCode code).deleteAuthRequest requestId)
            else if !(otruthy authRequest.agent_id && otruthy authRequest.model) then
              (.err 500 "server_error" "Missing agent information in auth request", st)
            else
              let agent_id := authRequest.agent_id.getD ""
              let model := authRequest.model.getD ""
              let token : Token :=
                { token_id := tokenId
                  access_token := accessToken
                  refresh_token := some refreshTokenValue
                  agent_id := agent_id
                  client_id := client_id
                  model := model
                  scope := authRequest.scope
                  access_token_expires_at := now + ACCESS_TOKEN_EXPIRES_IN * 1000
                  refresh_token_expires_at := some (now + REFRESH_TOKEN_EXPIRES_IN * 1000)
                  created_at := now
                  revoked := false }
              let entry : RefreshTokenEntry :=
                { refresh_token := refreshTokenValue
                  token_id := tokenId
                  agent_id := agent_id
                  client_id := client_id
                  expires_at := now + REFRESH_TOKEN_EXPIRES_IN * 1000
                  revoked := false }
              let st1 :=
                ((((st.createToken token).createRefreshToken entry).deleteAuthCode code).deleteAuthRequest requestId)
              (.ok accessToken "Bearer" ACCESS_TOKEN_EXPIRES_IN refreshTokenValue authRequest.scope, st1)

/-- `handleRefreshTokenGrant` from `src/oauth/token.ts`.  `newTokenId`
and `newAccessToken` are the freshly generated values; the presented
refresh token is reused and its expiry preserved. -/
def handleRefreshTokenGrant (verifySecret : String → String → Bool) (now : Nat)
    (newTokenId newAccessToken : String)
    (p : RefreshGrantParams) (st : Store) : TokenResponse × Store :=
  if !(otruthy p.refresh_token && otruthy p.client_id && otruthy p.client_secret) then
    (.err 400 "invalid_request" "Missing required parameters for refresh_token grant", st)
  else
    let refresh_token := p.refresh_token.getD ""
    let client_id := p.client_id.getD ""
    let client_secret := p.client_secret.getD ""
    match st.getClient client_id with
    | none => (.err 401 "invalid_client" "Client not found", st)
    | some client =>
      if !(verifySecret client_secret client.client_secret_hash) then
        (.err 401 "invalid_client" "Invalid client credentials", st)
      else
        match st.getRefreshToken refresh_token with
        | none => (.err 400 "invalid_grant" "Invalid refresh token", st)
        | some refreshTokenEntry =>
          if refreshTokenEntry.revoked then
            (.err 400 "invalid_grant" "Refresh token has been revoked", st)
          else if refreshTokenEntry.expires_at < now then
            (.err 400 "invalid_grant" "Refresh token expired", st)
          else if refreshTokenEntry.client_id ≠ client_id then
            (.err 400 "invalid_grant" "Client ID mismatch", st)
          else
            match st.getToken refreshTokenEntry.token_id with
            | none => (.err 500 "server_error" "Original token not found", st)
            | some originalToken =>
              let token : Token :=
                { token_id := newTokenId
                  access_token := newAccessToken
                  refresh_token := some refresh_token
                  agent_id := refreshTokenEntry.agent_id
                  client_id := client_id
                  model := originalToken.model
                  scope := originalToken.scope
                  access_token_expires_at := now + ACCESS_TOKEN_EXPIRES_IN * 1000
                  refresh_token_expires_at := some refreshTokenEntry.expires_at
                  created_at := now
                  revoked := false }
              (.ok newAccessToken "Bearer" ACCESS_TOKEN_EXPIRES_IN refresh_token originalToken.scope,
                st.createToken token)

/-- Request body of `POST /introspect`. -/
structure IntrospectParams where
  token : Option String := none
  token_type_hint : Option String := none
  client_id : Option String := none
  client_secret : Option String := none
deriving DecidableEq, Repr

/-- Introspection response: a JSON error with HTTP status, the
`active:false` body, or one of the two `active:true` documents. -/
inductive IntrospectResponse where
  | httpError (http : Nat) (error errorDescription : String)
  | inactive
  | activeAccess (scope client_id token_type : String) (exp iat : Nat) (sub iss model : String)
  | activeRefresh (token_type client_id sub : String) (exp : Nat) (model scope : Option String)
deriving DecidableEq, Repr

/-- `introspectAccessToken` from `src/oauth/introspect.ts`.
`verifyAccessToken` abstracts the JWT verification of `src/lib/jwt.ts`;
`nowMs` is `Date.now()` (the source compares `exp` against
`Math.floor(Date.now() / 1000)`). -/
def introspectAccessToken (verifyAccessToken : String → Option JWTPayload) (nowMs : Nat)
    (st : Store) (token clientId : String) : IntrospectResponse :=
  match verifyAccessToken token with
  | none => .inactive
  | some payload =>
    match st.getTokenByAccessToken token with
    | none => .inactive
    | some tokenEntry =>
      if tokenEntry.revoked then .inactive
      else if tokenEntry.client_id ≠ clientId then .inactive
      else if payload.exp < nowMs / 1000 then .inactive
      else
        .activeAccess payload.scope payload.client_id "Bearer" payload.exp payload.iat
          payload.sub payload.iss payload.model

/-- `introspectRefreshToken` from `src/oauth/introspect.ts`. -/
def introspectRefreshToken (nowMs : Nat) (st : Store) (token clientId : String) :
    IntrospectResponse :=
  match st.getRefreshToken token with
  | none => .inactive
  | some refreshToken =>
    if refreshToken.revoked then .inactive
    else if refreshToken.client_id ≠ clientId then .inactive
    else if refreshToken.expires_at < nowMs then .inactive
    else
      let originalToken := st.getToken refreshToken.token_id
      .activeRefresh "refresh_token" refreshToken.client_id refreshToken.agent_id
        (refreshToken.expires_at / 1000) (originalToken.map Token.model)
        (originalToken.map Token.scope)

/-- `introspectHandler` from `src/oauth/introspect.ts` (read-only: the
store is not mutated). -/
def introspectHandler (verifySecret : String → String → Bool)
    (verifyAccessToken : String → Option JWTPayload) (nowMs : Nat)
    (p : IntrospectParams) (st : Store) : IntrospectResponse :=
  if !(otruthy p.token) then
    .httpError 400 "invalid_request" "Missing token parameter"
  else if !(otruthy p.client_id && otruthy p.client_secret) then
    .httpError 400 "invalid_request" "Missing client credentials"
  else
    let client_id := p.client_id.getD ""
    match st.getClient client_id with
    | none => .httpError 401 "invalid_client" "Client not found"
    | some client =>
      if !(verifySecret (p.client_secret.getD "") client.client_secret_hash) then
        .httpError 401 "invalid_client" "Invalid client credentials"
      else if p.token_type_hint = some "refresh_token" then
        introspectRefreshToken nowMs st (p.token.getD "") client_id
      else
        introspectAccessToken verifyAccessToken nowMs st (p.token.getD "") client_id

/-- The module-level `revokeAccessToken` helper of `src/oauth/revoke.ts`:
returns whether the token resolved (and was revoked) plus the new
store. -/
def revokeAccessToken (st : Store) (token clientId : String) : Bool × Store :=
  match st.getTokenByAccessToken token with
  | none => (false, st)
  | some tokenEntry =>
    if tokenEntry.client_id ≠ clientId then (false, st)
    else
      let st1 := st.revokeTokenByAccessToken token
      let st2 :=
        if otruthy tokenEntry.refresh_token then
          st1.revokeRefreshToken (tokenEntry.refresh_token.getD "")
        else st1
      (true, st2)

/-- The module-level `revokeRefreshToken` helper of
`src/oauth/revoke.ts`: revoke the entry, then the token the entry points
to. -/
def revokeRefreshToken (st : Store) (token clientId : String) : Bool × Store :=
  match st.getRefreshToken token with
  | none => (false, st)
  | some refreshToken =>
    if refreshToken.client_id ≠ clientId then (false, st)
    else
      let st1 := st.revokeRefreshToken token
      let st2 :=
        match st1.getToken refreshToken.token_id with
        | none => st1
        | some tokenEntry => st1.revokeToken tokenEntry.token_id
      (true, st2)

/-- Request body of `POST /revoke`. -/
structure RevokeParams where
  token : Option String := none
  token_type_hint : Option String := none
  client_id : Option String := none
  client_secret : Option String := none
deriving DecidableEq, Repr

/-- Revocation response: the empty 200 body, or the 401
`invalid_client` error. -/
inductive RevokeResponse where
  | ok
  | invalidClient (errorDescription : String)
deriving DecidableEq, Repr

/-- `revokeHandler` from `src/oauth/revoke.ts`. -/
def revokeHandler (verifySecret : String → String → Bool)
    (p : RevokeParams) (st : Store) : RevokeResponse × Store :=
  if !(otruthy p.token) then
    (.ok, st)
  else if !(otruthy p.client_id && otruthy p.client_secret) then
    (.invalidClient "Missing client credentials", st)
  else
    let client_id := p.client_id.getD ""
    match st.getClient client_id with
    | none => (.invalidClient "Client not found", st)
    | some client =>
      if !(verifySecret (p.client_secret.getD "") client.client_secret_hash) then
        (.invalidClient "Invalid client credentials", st)
      else
        let token := p.token.getD ""
        if p.token_type_hint = some "refresh_token" then
          (.ok, (revokeRefreshToken st token client_id).2)
        else
          let res := revokeAccessToken st token client_id
          if res.1 then (.ok, res.2)
          else (.ok, (revokeRefreshToken res.2 token client_id).2)

/-! Concrete fixtures used by the counterexamples and witnesses.  The
abstract crypto parameters are instantiated with simple concrete models:
`vsEq` treats the stored hash as the plaintext, and `shaFx` maps the
verifier `goodv` to the challenge `chal`. -/

namespace Fx

/-- Model of bcrypt comparison for concrete runs: hash equals plaintext. -/
def vsEq : String → String → Bool := fun s h => s == h

/-- Model of base64url-SHA256 for concrete runs. -/
def shaFx : String → String := fun v => if v = "goodv" then "chal" else v ++ "X"

/-- Model of JWT verification for concrete runs: only the freshly issued
access token AT1 verifies. -/
def vatFx : String → Option JWTPayload := fun s =>
  if s = "AT1" then
    some { sub := "agent_1", client_id := "client_1", model := "m",
           scope := "openid profile", iat := 1000, exp := 5000, iss := "auth-agent.com" }
  else none

/-- A registered client. -/
def clientW : Client :=
  { client_id := "client_1", client_secret_hash := "sec", client_name := "W",
    allowed_redirect_uris := ["https://cb"], allowed_grant_types := [], created_at := 0 }

/-- The token issued by the original authorization-code grant. -/
def tok0 : Token :=
  { token_id := "tok_0", access_token := "AT0", refresh_token := some "rt_1",
    agent_id := "agent_1", client_id := "client_1", model := "m", scope := "openid profile",
    access_token_expires_at := 9000000000, refresh_token_expires_at := some 9000000000,
    created_at := 0, revoked := false }

/-- The refresh entry created with `tok0`. -/
def rte1 : RefreshTokenEntry :=
  { refresh_token := "rt_1", token_id := "tok_0", agent_id := "agent_1",
    client_id := "client_1", expires_at := 9000000000, revoked := false }

/-- Store after a completed authorization-code grant: client, original
token and its refresh entry. -/
def stC1 : Store :=
  { clients := [("client_1", clientW)], tokens := [("tok_0", tok0)],
    refreshTokens := [("rt_1", rte1)] }

/-- An auth request whose code `code_abc` is still bound (challenge
`chal`, method S256). -/
def reqC2 : AuthRequest :=
  { request_id := "req_1", client_id := "client_1", redirect_uri := "https://cb",
    state := "xyz", code_challenge := "chal", code_challenge_method := "S256",
    scope := "openid profile", code := some "code_abc", agent_id := some "agent_1",
    model := some "m", status := .completed, created_at := 0, expires_at := 9000000000 }

/-- Store holding `reqC2` and its code binding. -/
def stC2 : Store :=
  { clients := [("client_1", clientW)], authRequests := [("req_1", reqC2)],
    authorizationCodes := [("code_abc", "req_1")] }

/-- An authenticated request already past its `expires_at` (500). -/
def reqC3 : AuthRequest :=
  { reqC2 with status := .authenticated, expires_at := 500 }

/-- Store holding the expired-but-authenticated request and its code
binding. -/
def stC3 : Store :=
  { clients := [("client_1", clientW)], authRequests := [("req_1", reqC3)],
    authorizationCodes := [("code_abc", "req_1")] }

/-- A completed (terminal) request already past its `expires_at`. -/
def reqC4 : AuthRequest := { reqC3 with status := .completed, code := none }

/-- Store holding the expired completed request. -/
def stC4 : Store := { authRequests := [("req_1", reqC4)] }

/-- A pending request already past its `expires_at`. -/
def reqC5 : AuthRequest :=
  { reqC4 with status := .pending, agent_id := none, model := none }

/-- Store holding the expired pending request. -/
def stC5 : Store := { authRequests := [("req_1", reqC5)] }

/-- A request in the `expired` status, as left behind by
`authenticate_agent` on a stale request. -/
def reqC5x : AuthRequest := { reqC4 with status := .expired }

/-- Store holding the `expired`-status request. -/
def stC5x : Store := { authRequests := [("req_1", reqC5x)] }

/-- The `authenticated` request of `stC3` after its code was delivered
once (status `completed`). -/
def reqC6b : AuthRequest := { reqC3 with status := .completed }

/-- Store holding the completed request, still with its code field. -/
def stC6b : Store :=
  { clients := [("client_1", clientW)], authRequests := [("req_1", reqC6b)],
    authorizationCodes := [("code_abc", "req_1")] }

/-- The token issued by the refresh grant of the C1 scenario. -/
def tok1 : Token :=
  { token_id := "tok_1", access_token := "AT1", refresh_token := some "rt_1",
    agent_id := "agent_1", client_id := "client_1", model := "m", scope := "openid profile",
    access_token_expires_at := 1003600000, refresh_token_expires_at := some 9000000000,
    created_at := 1000000, revoked := false }

/-- Store after the refresh grant of the C1 scenario: both token records
plus the shared refresh entry. -/
def stC1w : Store :=
  { clients := [("client_1", clientW)], tokens := [("tok_0", tok0), ("tok_1", tok1)],
    refreshTokens := [("rt_1", rte1)] }

/-- Agent-authenticate parameters used in the concrete runs. -/
def authP : AuthenticateParams :=
  { request_id := some "req_1", agent_id := some "agent_1",
    agent_secret := some "sec", model := some "m" }

/-- The refresh entry of `tok0`, but about to expire (one second after
`now = 1000000`). -/
def rte8 : RefreshTokenEntry := { rte1 with expires_at := 1001000 }

/-- Store for a refresh grant performed close to the refresh token's
expiry. -/
def stC8 : Store :=
  { clients := [("client_1", clientW)], tokens := [("tok_0", tok0)],
    refreshTokens := [("rt_1", rte8)] }

end Fx

/-! Association-list lemmas, the `Map` laws the handler proofs rely
on. -/

theorem lookupKV_setKV_self (k : String) (v : α) (l : List (String × α)) :
    lookupKV k (setKV k v l) = some v := by
  induction l with
  | nil => simp [setKV, lookupKV]
  | cons hd tl ih =>
      obtain ⟨k0, v0⟩ := hd
      by_cases h : k0 = k
      · simp [setKV, h, lookupKV]
      · simp [setKV, h, lookupKV, ih]

theorem lookupKV_setKV_ne (k k2 : String) (v : α) (l : List (String × α)) (h : k2 ≠ k) :
    lookupKV k2 (setKV k v l) = lookupKV k2 l := by
  have hne : ¬ k = k2 := fun hh => h hh.symm
  induction l with
  | nil => simp [setKV, lookupKV, hne]
  | cons hd tl ih =>
      obtain ⟨k0, v0⟩ := hd
      by_cases hk : k0 = k
      · subst hk
        simp [setKV, lookupKV, hne]
      · simp [setKV, hk, lookupKV, ih]

theorem lookupKV_eraseKV_self (k : String) (l : List (String × α)) :
    lookupKV k (eraseKV k l) = none := by
  induction l with
  | nil => rfl
  | cons hd tl ih =>
      obtain ⟨k0, v0⟩ := hd
      by_cases h : k0 = k
      · simpa [eraseKV, h] using ih
      · simpa [eraseKV, h, lookupKV] using ih

theorem lookupKV_eraseKV_ne (k k2 : String) (l : List (String × α)) (h : k2 ≠ k) :
    lookupKV k2 (eraseKV k l) = lookupKV k2 l := by
  have hne : ¬ k = k2 := fun hh => h hh.symm
  induction l with
  | nil => rfl
  | cons hd tl ih =>
      obtain ⟨k0, v0⟩ := hd
      by_cases hk : k0 = k
      · subst hk
        simp [eraseKV, lookupKV, hne, ih]
      · simp [eraseKV, hk, lookupKV, ih]

theorem lookupKV_eq_none_of_forall_ne (k : String) (l : List (String × α))
    (h : ∀ p ∈ l, p.1 ≠ k) : lookupKV k l = none := by
  induction l with
  | nil => rfl
  | cons hd tl ih =>
      obtain ⟨k0, v0⟩ := hd
      have h0 : k0 ≠ k := h (k0, v0) (List.mem_cons_self _ _)
      simp only [lookupKV, h0, if_false]
      exact ih (fun p hp => h p (List.mem_cons_of_mem _ hp))

theorem lookupKV_filter_of_expired (k : String) (now : Nat)
    (l : List (String × AuthRequest)) (r : AuthRequest)
    (hnd : (l.map Prod.fst).Nodup)
    (hfind : lookupKV k l = some r) (hexp : r.expires_at < now) :
    lookupKV k (l.filter (fun p => !(decide (p.2.expires_at < now)))) = none := by
  induction l with
  | nil => simp [lookupKV] at hfind
  | cons hd tl ih =>
      obtain ⟨k0, v0⟩ := hd
      simp only [List.map_cons, List.nodup_cons] at hnd
      rw [List.filter_cons]
      by_cases h : k0 = k
      · subst h
        rw [lookupKV, if_pos rfl] at hfind
        injection hfind with hv
        subst hv
        have hdrop : (!(decide (v0.expires_at < now))) = false := by
          simp [hexp]
        simp only [hdrop, Bool.false_eq_true, if_false]
        apply lookupKV_eq_none_of_forall_ne
        intro p hp hpk
        exact hnd.1 (hpk ▸ List.mem_map_of_mem _ (List.mem_of_mem_filter hp))
      · rw [lookupKV, if_neg h] at hfind
        by_cases hkeep : (!(decide (v0.expires_at < now))) = true
        · simp only [hkeep, if_true]
          rw [lookupKV, if_neg h]
          exact ih hnd.2 hfind
        · simp only [Bool.not_eq_true] at hkeep
          simp only [hkeep, Bool.false_eq_true, if_false]
          exact ih hnd.2 hfind

/-- C9: `validatePKCE` is exactly the S256 round-trip: for every hash
function and verifier, the recomputed challenge of the verifier
validates under method S256; any method other than S256 yields false
regardless of verifier and challenge; and under S256 the result is true
exactly when the recomputed challenge equals the stored one. -/
theorem validatePKCE_is_s256_roundtrip :
    (∀ (sha : String → String) (v : String), validatePKCE sha v (sha v) "S256" = true) ∧
    (∀ (sha : String → String) (v c m : String), m ≠ "S256" → validatePKCE sha v c m = false) ∧
    (∀ (sha : String → String) (v c : String),
      validatePKCE sha v c "S256" = true ↔ sha v = c) := by
  refine ⟨fun sha v => ?_, fun sha v c m hm => ?_, fun sha v c => ?_⟩
  · simp [validatePKCE]
  · simp [validatePKCE, hm]
  · simp [validatePKCE]

/-- Witness for C9 at concrete inputs: the concrete hash appends a
bang; round-trip validates, method `plain` is refused, and the
equivalence holds at a mismatched challenge. -/
theorem validatePKCE_is_s256_roundtrip_witness :
    validatePKCE (fun s => s ++ "!") "abc" "abc!" "S256" = true ∧
    validatePKCE (fun s => s ++ "!") "abc" "abc!" "plain" = false ∧
    (validatePKCE (fun s => s ++ "!") "abc" "zzz" "S256" = true ↔
      (fun s => s ++ "!") "abc" = "zzz") :=
  ⟨validatePKCE_is_s256_roundtrip.1 (fun s => s ++ "!") "abc",
   validatePKCE_is_s256_roundtrip.2.1 (fun s => s ++ "!") "abc" "abc!" "plain" (by decide),
   validatePKCE_is_s256_roundtrip.2.2 (fun s => s ++ "!") "abc" "zzz"⟩

/-- C10: the revocation endpoint called without a token parameter
returns the empty 200 body at once, leaving the store unchanged,
whatever the client credentials and whatever the credential-check
function — client authentication is never consulted. -/
theorem revokeHandler_missing_token_skips_client_auth :
    ∀ (verifySecret : String → String → Bool)
      (hint client_id client_secret : Option String) (st : Store),
      revokeHandler verifySecret
        { token := none, token_type_hint := hint, client_id := client_id,
          client_secret := client_secret } st = (.ok, st) := by
  intro vs hint cid cs st
  rfl

/-- C1 (counterexample): from a store holding the original token pair
(`tok_0`, access AT0, refresh rt_1), a refresh grant issues a second
access token AT1 under the fresh id `tok_1`; revoking rt_1 afterwards
returns 200, yet introspecting AT1 still reports `active:true` — the
cascade misses access tokens issued by later refresh grants,
contradicting the claim. -/
theorem revoke_refresh_misses_refreshed_access_token_cex :
    (handleRefreshTokenGrant Fx.vsEq 1000000 "tok_1" "AT1"
        { refresh_token := some "rt_1", client_id := some "client_1",
          client_secret := some "sec" } Fx.stC1).1
      = .ok "AT1" "Bearer" 3600 "rt_1" "openid profile" ∧
    (revokeHandler Fx.vsEq
        { token := some "rt_1", token_type_hint := some "refresh_token",
          client_id := some "client_1", client_secret := some "sec" }
        (handleRefreshTokenGrant Fx.vsEq 1000000 "tok_1" "AT1"
          { refresh_token := some "rt_1", client_id := some "client_1",
            client_secret := some "sec" } Fx.stC1).2).1 = .ok ∧
    introspectHandler Fx.vsEq Fx.vatFx 1000000
        { token := some "AT1", client_id := some "client_1", client_secret := some "sec" }
        (revokeHandler Fx.vsEq
          { token := some "rt_1", token_type_hint := some "refresh_token",
            client_id := some "client_1", client_secret := some "sec" }
          (handleRefreshTokenGrant Fx.vsEq 1000000 "tok_1" "AT1"
            { refresh_token := some "rt_1", client_id := some "client_1",
              client_secret := some "sec" } Fx.stC1).2).2
      = .activeAccess "openid profile" "client_1" "Bearer" 5000 1000 "agent_1"
          "auth-agent.com" "m" := by
  refine ⟨by decide, by decide, by decide⟩

/-- C2 (counterexample): exchanging `code_abc` with the wrong verifier
returns `invalid_grant` but leaves the store untouched — the code is not
consumed — so a later exchange of the same code with the correct
verifier succeeds, contradicting the claim that it too fails with
`invalid_grant`. -/
theorem pkce_failure_does_not_consume_code_cex :
    handleAuthorizationCodeGrant Fx.vsEq Fx.shaFx 1000 "tok_0" "AT0" "rt_1"
        { code := some "code_abc", code_verifier := some "wrong",
          client_id := some "client_1", client_secret := some "sec" } Fx.stC2
      = (.err 400 "invalid_grant" "Invalid PKCE code_verifier", Fx.stC2) ∧
    (handleAuthorizationCodeGrant Fx.vsEq Fx.shaFx 1000 "tok_0" "AT0" "rt_1"
        { code := some "code_abc", code_verifier := some "goodv",
          client_id := some "client_1", client_secret := some "sec" } Fx.stC2).1
      = .ok "AT0" "Bearer" 3600 "rt_1" "openid profile" := by
  refine ⟨by decide, by decide⟩

/-- C3 (counterexample): the request `req_1` is past its `expires_at`
(500 < 1000) and in status `authenticated`; the check-status endpoint
still returns its authorization code, contradicting the claim that an
expired AuthRequest never yields its code. -/
theorem expired_authenticated_poll_returns_code_cex :
    (checkStatusHandler 1000 (some "req_1") Fx.stC3).1
      = .authenticatedDoc "code_abc" "xyz" "https://cb" := by
  decide

/-- C4 (counterexample): `req_1` is in the terminal status `completed`
but past its `expires_at`; `authenticate_agent` answers
`request_expired` (not `invalid_request`) and rewrites the status to
`expired`, contradicting the claim that terminal statuses never change. -/
theorem terminal_status_overwritten_by_authenticate_cex :
    (Fx.stC4.getAuthRequest "req_1").map AuthRequest.status = some .completed ∧
    (agentAuthenticateHandler Fx.vsEq 1000 "code_new" Fx.authP Fx.stC4).1
      = .failure 400 "request_expired" "Auth request has expired" ∧
    ((agentAuthenticateHandler Fx.vsEq 1000 "code_new" Fx.authP Fx.stC4).2.getAuthRequest
        "req_1").map AuthRequest.status = some .expired := by
  refine ⟨by decide, by decide, by decide⟩

/-- C5 (counterexample): after `authenticate_agent` on the expired
pending request `req_1` returns `request_expired` (marking it
`expired`), polling the same request returns `{status:"pending"}`, not
`{status:"error"}` — the status-poll maps only status `error` to the
error document. -/
theorem expired_request_polls_as_pending_cex :
    (agentAuthenticateHandler Fx.vsEq 1000 "code_new" Fx.authP Fx.stC5).1
      = .failure 400 "request_expired" "Auth request has expired" ∧
    (checkStatusHandler 1000 (some "req_1")
        (agentAuthenticateHandler Fx.vsEq 1000 "code_new" Fx.authP Fx.stC5).2).1
      = .pendingDoc := by
  refine ⟨by decide, by decide⟩

/-- C8 (counterexample): a refresh grant performed at `now = 1000000`
against a refresh token expiring at 1001000 succeeds and stores a token
whose `refresh_token_expires_at` (1001000) is below its
`access_token_expires_at` (4600000), contradicting the claimed
invariant `refresh_expires_at ≥ access_expires_at`. -/
theorem refresh_near_expiry_violates_expiry_invariant_cex :
    (handleRefreshTokenGrant Fx.vsEq 1000000 "tok_1" "AT1"
        { refresh_token := some "rt_1", client_id := some "client_1",
          client_secret := some "sec" } Fx.stC8).1
      = .ok "AT1" "Bearer" 3600 "rt_1" "openid profile" ∧
    ((handleRefreshTokenGrant Fx.vsEq 1000000 "tok_1" "AT1"
        { refresh_token := some "rt_1", client_id := some "client_1",
          client_secret := some "sec" } Fx.stC8).2.getToken "tok_1")
      = some { token_id := "tok_1", access_token := "AT1", refresh_token := some "rt_1",
               agent_id := "agent_1", client_id := "client_1", model := "m",
               scope := "openid profile", access_token_expires_at := 4600000,
               refresh_token_expires_at := some 1001000, created_at := 1000000,
               revoked := false } ∧
    ((handleRefreshTokenGrant Fx.vsEq 1000000 "tok_1" "AT1"
        { refresh_token := some "rt_1", client_id := some "client_1",
          client_secret := some "sec" } Fx.stC8).2.getToken "tok_1").map
        (fun t => decide (t.refresh_token_expires_at.getD 0 ≥ t.access_token_expires_at))
      = some false := by
  refine ⟨by decide, by decide, by decide⟩

/-- C2 (amended): when the supplied code_verifier fails PKCE
verification the endpoint returns `invalid_grant` and leaves the store
exactly as it was — the authorization code is NOT consumed, so a
subsequent exchange of the same code with the correct verifier can
still succeed. -/
theorem pkce_failure_leaves_code_unconsumed
    (vs : String → String → Bool) (sha : String → String) (now : Nat)
    (tid atk rtv : String) (p : CodeGrantParams) (st : Store)
    (client : Client) (requestId : String) (authRequest : AuthRequest)
    (htc : otruthy p.code = true) (htv : otruthy p.code_verifier = true)
    (hti : otruthy p.client_id = true) (hts : otruthy p.client_secret = true)
    (hclient : st.getClient (p.client_id.getD "") = some client)
    (hvs : vs (p.client_secret.getD "") client.client_secret_hash = true)
    (hbind : st.getAuthCodeRequestId (p.code.getD "") = some requestId)
    (hreq : st.getAuthRequest requestId = some authRequest)
    (hmatch : authRequest.code = some (p.code.getD ""))
    (hcid : authRequest.client_id = p.client_id.getD "")
    (hpkce : validatePKCE sha (p.code_verifier.getD "") authRequest.code_challenge
        authRequest.code_challenge_method = false) :
    handleAuthorizationCodeGrant vs sha now tid atk rtv p st
      = (.err 400 "invalid_grant" "Invalid PKCE code_verifier", st) := by
  simp [handleAuthorizationCodeGrant, htc, htv, hti, hts, hclient, hvs, hbind, hreq,
    hmatch, hcid, hpkce]

/-- Witness for C2 (amended) at concrete inputs. -/
theorem pkce_failure_leaves_code_unconsumed_witness :
    handleAuthorizationCodeGrant Fx.vsEq Fx.shaFx 2000 "tok_9" "AT9" "rt_9"
        { code := some "code_abc", code_verifier := some "nope",
          client_id := some "client_1", client_secret := some "sec" } Fx.stC2
      = (.err 400 "invalid_grant" "Invalid PKCE code_verifier", Fx.stC2) :=
  pkce_failure_leaves_code_unconsumed Fx.vsEq Fx.shaFx 2000 "tok_9" "AT9" "rt_9"
    { code := some "code_abc", code_verifier := some "nope",
      client_id := some "client_1", client_secret := some "sec" }
    Fx.stC2 Fx.clientW "req_1" Fx.reqC2 (by decide) (by decide) (by decide) (by decide)
    (by decide) (by decide) (by decide) (by decide) (by decide) (by decide) (by decide)

/-- C3 (amended): the request TTL is not enforced by the status poll for
authenticated requests — a request past `expires_at` in status
`authenticated` still yields its code from the check-status endpoint.
The TTL is enforced at the token endpoint: exchanging the code of a
request past `expires_at` returns `invalid_grant` and deletes both the
code binding and the request, so an expired AuthRequest never yields
tokens. -/
theorem ttl_enforced_at_token_endpoint_not_at_poll
    (vs : String → String → Bool) (sha : String → String) (now : Nat)
    (tid atk rtv : String) (p : CodeGrantParams) (st : Store)
    (client : Client) (rid c : String) (r : AuthRequest)
    (hrid : rid ≠ "")
    (hreq : st.getAuthRequest rid = some r)
    (hexp : r.expires_at < now)
    (hstatus : r.status = .authenticated)
    (hcode : r.code = some c) (hc : c ≠ "")
    (htc : otruthy p.code = true) (htv : otruthy p.code_verifier = true)
    (hti : otruthy p.client_id = true) (hts : otruthy p.client_secret = true)
    (hclient : st.getClient (p.client_id.getD "") = some client)
    (hvs : vs (p.client_secret.getD "") client.client_secret_hash = true)
    (hbind : st.getAuthCodeRequestId (p.code.getD "") = some rid)
    (hmatch : r.code = some (p.code.getD ""))
    (hcid : r.client_id = p.client_id.getD "")
    (hpkce : validatePKCE sha (p.code_verifier.getD "") r.code_challenge
        r.code_challenge_method = true) :
    (checkStatusHandler now (some rid) st).1
      = .authenticatedDoc c r.state r.redirect_uri ∧
    handleAuthorizationCodeGrant vs sha now tid atk rtv p st
      = (.err 400 "invalid_grant" "Authorization code expired",
         (st.deleteAuthCode (p.code.getD "")).deleteAuthRequest rid) := by
  constructor
  · have hco : otruthy r.code = true := by
      rw [hcode]
      simpa [otruthy] using hc
    simp [checkStatusHandler, otruthy, hrid, hreq, hstatus, hco, hcode, hc]
  · simp [handleAuthorizationCodeGrant, htc, htv, hti, hts, hclient, hvs, hbind, hreq,
      hmatch, hcid, hpkce, hexp]

/-- Witness for C3 (amended) at concrete inputs: the expired
authenticated request of `stC3`. -/
theorem ttl_enforced_at_token_endpoint_not_at_poll_witness :
    (checkStatusHandler 1000 (some "req_1") Fx.stC3).1
      = .authenticatedDoc "code_abc" Fx.reqC3.state Fx.reqC3.redirect_uri ∧
    handleAuthorizationCodeGrant Fx.vsEq Fx.shaFx 1000 "tok_0" "AT0" "rt_1"
        { code := some "code_abc", code_verifier := some "goodv",
          client_id := some "client_1", client_secret := some "sec" } Fx.stC3
      = (.err 400 "invalid_grant" "Authorization code expired",
         (Fx.stC3.deleteAuthCode "code_abc").deleteAuthRequest "req_1") :=
  ttl_enforced_at_token_endpoint_not_at_poll Fx.vsEq Fx.shaFx 1000 "tok_0" "AT0" "rt_1"
    { code := some "code_abc", code_verifier := some "goodv",
      client_id := some "client_1", client_secret := some "sec" }
    Fx.stC3 Fx.clientW "req_1" "code_abc" Fx.reqC3 (by decide) (by decide) (by decide)
    (by decide) (by decide) (by decide) (by decide) (by decide) (by decide) (by decide)
    (by decide) (by decide) (by decide) (by decide) (by decide) (by decide)

/-- C4 (amended): `authenticate_agent` checks expiry before status.  On
any resolvable request past `expires_at` — pending or terminal — it sets
the status to `expired` and returns `request_expired`; only a
non-pending request that is not yet past `expires_at` is answered with
`invalid_request` carrying the current status, with the store
unchanged. -/
theorem authenticate_agent_expiry_check_precedes_status_check
    (vs : String → String → Bool) (now : Nat) (freshCode : String)
    (p : AuthenticateParams) (st : Store) (r : AuthRequest)
    (ht1 : otruthy p.request_id = true) (ht2 : otruthy p.agent_id = true)
    (ht3 : otruthy p.agent_secret = true) (ht4 : otruthy p.model = true)
    (hreq : st.getAuthRequest (p.request_id.getD "") = some r)
    (hnp : r.status ≠ .pending) :
    agentAuthenticateHandler vs now freshCode p st
      = if r.expires_at < now then
          (.failure 400 "request_expired" "Auth request has expired",
            st.updateAuthRequest (p.request_id.getD "")
              (fun x => { x with status := .expired, error := some "Auth request expired" }))
        else
          (.failure 400 "invalid_request"
            ("Auth request is already " ++ r.status.toText), st) := by
  by_cases hexp : r.expires_at < now
  · simp [agentAuthenticateHandler, ht1, ht2, ht3, ht4, hreq, hexp]
  · simp [agentAuthenticateHandler, ht1, ht2, ht3, ht4, hreq, hexp, hnp]

/-- Witness for C4 (amended) at concrete inputs: a completed request not
yet expired is answered `invalid_request` with its current status. -/
theorem authenticate_agent_expiry_check_precedes_status_check_witness :
    agentAuthenticateHandler Fx.vsEq 100 "code_new" Fx.authP Fx.stC4
      = if Fx.reqC4.expires_at < 100 then
          (.failure 400 "request_expired" "Auth request has expired",
            Fx.stC4.updateAuthRequest "req_1"
              (fun x => { x with status := .expired, error := some "Auth request expired" }))
        else
          (.failure 400 "invalid_request"
            ("Auth request is already " ++ Fx.reqC4.status.toText), Fx.stC4) :=
  authenticate_agent_expiry_check_precedes_status_check Fx.vsEq 100 "code_new" Fx.authP
    Fx.stC4 Fx.reqC4 (by decide) (by decide) (by decide) (by decide) (by decide) (by decide)

/-- C5 (amended): after a request has been marked `expired`, the
status-poll returns `{status:"pending"}` (only status `error` maps to
the error document), and keeps doing so until the sweeper removes the
row, after which polling returns 404 `not_found`. -/
theorem expired_status_polls_pending_until_swept
    (now now2 : Nat) (rid : String) (st : Store) (r : AuthRequest)
    (hrid : rid ≠ "")
    (hreq : st.getAuthRequest rid = some r)
    (hstatus : r.status = .expired)
    (hnd : (st.authRequests.map Prod.fst).Nodup)
    (hexp : r.expires_at < now2) :
    checkStatusHandler now (some rid) st = (.pendingDoc, st) ∧
    (checkStatusHandler now2 (some rid) (st.cleanupExpired now2)).1
      = .httpError 404 "not_found" "Auth request not found" := by
  constructor
  · simp [checkStatusHandler, otruthy, hrid, hreq, hstatus]
  · have hnone : (st.cleanupExpired now2).getAuthRequest rid = none := by
      have := lookupKV_filter_of_expired rid now2 st.authRequests r hnd (by
        simpa [Store.getAuthRequest] using hreq) hexp
      simpa [Store.cleanupExpired, Store.getAuthRequest] using this
    simp [checkStatusHandler, otruthy, hrid, hnone]

/-- Witness for C5 (amended) at concrete inputs: the `expired`-status
request of `stC5x`, polled before and after the sweep. -/
theorem expired_status_polls_pending_until_swept_witness :
    checkStatusHandler 1000 (some "req_1") Fx.stC5x = (.pendingDoc, Fx.stC5x) ∧
    (checkStatusHandler 2000 (some "req_1") (Fx.stC5x.cleanupExpired 2000)).1
      = .httpError 404 "not_found" "Auth request not found" :=
  expired_status_polls_pending_until_swept 1000 2000 "req_1" Fx.stC5x Fx.reqC5x
    (by decide) (by decide) (by decide) (by decide) (by decide)

/-- C6: the status poll delivers the code at most once.  A poll that
observes status `authenticated` (with a nonempty code) returns
`{status:"authenticated", code, state, redirect_uri}` and transitions
the request to `completed`; the transitioned record is indeed stored
with status `completed`; and any poll on a request whose status is
`completed` returns the pending document, which carries no code. -/
theorem poll_delivers_code_at_most_once
    (now now2 : Nat) (rid c : String) (st st2 : Store) (r r2 : AuthRequest)
    (hrid : rid ≠ "")
    (hreq : st.getAuthRequest rid = some r)
    (hstatus : r.status = .authenticated)
    (hcode : r.code = some c) (hc : c ≠ "")
    (hreq2 : st2.getAuthRequest rid = some r2)
    (hstatus2 : r2.status = .completed) :
    checkStatusHandler now (some rid) st
      = (.authenticatedDoc c r.state r.redirect_uri,
         st.updateAuthRequest rid (fun x => { x with status := .completed })) ∧
    (st.updateAuthRequest rid (fun x => { x with status := .completed })).getAuthRequest rid
      = some { r with status := .completed } ∧
    checkStatusHandler now2 (some rid) st2 = (.pendingDoc, st2) := by
  refine ⟨?_, ?_, ?_⟩
  · have hco : otruthy r.code = true := by
      rw [hcode]
      simpa [otruthy] using hc
    simp [checkStatusHandler, otruthy, hrid, hreq, hstatus, hco, hcode, hc]
  · have hl : lookupKV rid st.authRequests = some r := by
      simpa [Store.getAuthRequest] using hreq
    simp [Store.updateAuthRequest, Store.getAuthRequest, hl, lookupKV_setKV_self]
  · simp [checkStatusHandler, otruthy, hrid, hreq2, hstatus2]

/-- Witness for C6 at concrete inputs: the authenticated request of
`stC3` delivers its code and transitions; the completed request of
`stC6b` polls as pending. -/
theorem poll_delivers_code_at_most_once_witness :
    checkStatusHandler 100 (some "req_1") Fx.stC3
      = (.authenticatedDoc "code_abc" Fx.reqC3.state Fx.reqC3.redirect_uri,
         Fx.stC3.updateAuthRequest "req_1" (fun x => { x with status := .completed })) ∧
    (Fx.stC3.updateAuthRequest "req_1"
        (fun x => { x with status := .completed })).getAuthRequest "req_1"
      = some { Fx.reqC3 with status := .completed } ∧
    checkStatusHandler 100 (some "req_1") Fx.stC6b = (.pendingDoc, Fx.stC6b) :=
  poll_delivers_code_at_most_once 100 100 "req_1" "code_abc" Fx.stC3 Fx.stC6b
    Fx.reqC3 Fx.reqC6b (by decide) (by decide) (by decide) (by decide) (by decide)
    (by decide) (by decide)

/-- C7: a successful authorization-code exchange issues the token
response, deletes the code binding and the AuthRequest, and therefore a
second exchange presenting the same code — any verifier, same valid
client credentials — fails with `invalid_grant`. -/
theorem successful_exchange_consumes_code
    (vs : String → String → Bool) (sha : String → String) (now now2 : Nat)
    (tid atk rtv tid2 atk2 rtv2 : String) (p : CodeGrantParams) (v2 : Option String)
    (st : Store) (client : Client) (rid : String) (r : AuthRequest)
    (htc : otruthy p.code = true) (htv : otruthy p.code_verifier = true)
    (hti : otruthy p.client_id = true) (hts : otruthy p.client_secret = true)
    (htv2 : otruthy v2 = true)
    (hclient : st.getClient (p.client_id.getD "") = some client)
    (hvs : vs (p.client_secret.getD "") client.client_secret_hash = true)
    (hbind : st.getAuthCodeRequestId (p.code.getD "") = some rid)
    (hreq : st.getAuthRequest rid = some r)
    (hmatch : r.code = some (p.code.getD ""))
    (hcid : r.client_id = p.client_id.getD "")
    (hpkce : validatePKCE sha (p.code_verifier.getD "") r.code_challenge
        r.code_challenge_method = true)
    (hnexp : ¬ r.expires_at < now)
    (hagent : otruthy r.agent_id = true) (hmodel : otruthy r.model = true) :
    (handleAuthorizationCodeGrant vs sha now tid atk rtv p st).1
      = .ok atk "Bearer" ACCESS_TOKEN_EXPIRES_IN rtv r.scope ∧
    (handleAuthorizationCodeGrant vs sha now tid atk rtv p st).2.getAuthCodeRequestId
        (p.code.getD "") = none ∧
    (handleAuthorizationCodeGrant vs sha now tid atk rtv p st).2.getAuthRequest rid
        = none ∧
    handleAuthorizationCodeGrant vs sha now2 tid2 atk2 rtv2
        { p with code_verifier := v2 }
        (handleAuthorizationCodeGrant vs sha now tid atk rtv p st).2
      = (.err 400 "invalid_grant" "Invalid or expired authorization code",
         (handleAuthorizationCodeGrant vs sha now tid atk rtv p st).2) := by
  have hrun :
      handleAuthorizationCodeGrant vs sha now tid atk rtv p st
        = (.ok atk "Bearer" ACCESS_TOKEN_EXPIRES_IN rtv r.scope,
            ((((st.createToken
              { token_id := tid
                access_token := atk
                refresh_token := some rtv
                agent_id := r.agent_id.getD ""
                client_id := p.client_id.getD ""
                model := r.model.getD ""
                scope := r.scope
                access_token_expires_at := now + ACCESS_TOKEN_EXPIRES_IN * 1000
                refresh_token_expires_at := some (now + REFRESH_TOKEN_EXPIRES_IN * 1000)
                created_at := now
                revoked := false }).createRefreshToken
              { refresh_token := rtv
                token_id := tid
                agent_id := r.agent_id.getD ""
                client_id := p.client_id.getD ""
                expires_at := now + REFRESH_TOKEN_EXPIRES_IN * 1000
                revoked := false }).deleteAuthCode (p.code.getD "")).deleteAuthRequest rid)) := by
    simp [handleAuthorizationCodeGrant, htc, htv, hti, hts, hclient, hvs, hbind, hreq,
      hmatch, hcid, hpkce, hnexp, hagent, hmodel]
  rw [hrun]
  refine ⟨rfl, ?_, ?_, ?_⟩
  · simp [Store.deleteAuthRequest, Store.deleteAuthCode, Store.createRefreshToken,
      Store.createToken, Store.getAuthCodeRequestId, lookupKV_eraseKV_self]
  · simp [Store.deleteAuthRequest, Store.deleteAuthCode, Store.createRefreshToken,
      Store.createToken, Store.getAuthRequest, lookupKV_eraseKV_self]
  · have hclientKV : lookupKV (p.client_id.getD "") st.clients = some client := by
      simpa [Store.getClient] using hclient
    simp [handleAuthorizationCodeGrant, htc, htv2, hti, hts, hvs, hclientKV,
      Store.deleteAuthRequest, Store.deleteAuthCode, Store.createRefreshToken,
      Store.createToken, Store.getClient, Store.getAuthCodeRequestId,
      lookupKV_eraseKV_self]

/-- Witness for C7 at concrete inputs: exchanging `code_abc` from
`stC2` with the correct verifier, then retrying with another
verifier. -/
theorem successful_exchange_consumes_code_witness :
    (handleAuthorizationCodeGrant Fx.vsEq Fx.shaFx 1000 "tok_0" "AT0" "rt_1"
        { code := some "code_abc", code_verifier := some "goodv",
          client_id := some "client_1", client_secret := some "sec" } Fx.stC2).1
      = .ok "AT0" "Bearer" ACCESS_TOKEN_EXPIRES_IN "rt_1" Fx.reqC2.scope ∧
    (handleAuthorizationCodeGrant Fx.vsEq Fx.shaFx 1000 "tok_0" "AT0" "rt_1"
        { code := some "code_abc", code_verifier := some "goodv",
          client_id := some "client_1", client_secret := some "sec" }
        Fx.stC2).2.getAuthCodeRequestId "code_abc" = none ∧
    (handleAuthorizationCodeGrant Fx.vsEq Fx.shaFx 1000 "tok_0" "AT0" "rt_1"
        { code := some "code_abc", code_verifier := some "goodv",
          client_id := some "client_1", client_secret := some "sec" }
        Fx.stC2).2.getAuthRequest "req_1" = none ∧
    handleAuthorizationCodeGrant Fx.vsEq Fx.shaFx 2000 "tok_9" "AT9" "rt_9"
        { code := some "code_abc", code_verifier := some "other",
          client_id := some "client_1", client_secret := some "sec" }
        (handleAuthorizationCodeGrant Fx.vsEq Fx.shaFx 1000 "tok_0" "AT0" "rt_1"
          { code := some "code_abc", code_verifier := some "goodv",
            client_id := some "client_1", client_secret := some "sec" } Fx.stC2).2
      = (.err 400 "invalid_grant" "Invalid or expired authorization code",
         (handleAuthorizationCodeGrant Fx.vsEq Fx.shaFx 1000 "tok_0" "AT0" "rt_1"
           { code := some "code_abc", code_verifier := some "goodv",
             client_id := some "client_1", client_secret := some "sec" } Fx.stC2).2) :=
  successful_exchange_consumes_code Fx.vsEq Fx.shaFx 1000 2000 "tok_0" "AT0" "rt_1"
    "tok_9" "AT9" "rt_9"
    { code := some "code_abc", code_verifier := some "goodv",
      client_id := some "client_1", client_secret := some "sec" }
    (some "other") Fx.stC2 Fx.clientW "req_1" Fx.reqC2 (by decide) (by decide)
    (by decide) (by decide) (by decide) (by decide) (by decide) (by decide) (by decide)
    (by decide) (by decide) (by decide) (by decide) (by decide) (by decide)

/-- C1 (amended): revoking a refresh token revokes the refresh entry and
the single Token record referenced by the entry's `token_id` (the record
from the original grant); every Token stored under a different id —
such as one created by a later refresh grant, whose id is fresh — is
left untouched.  Introspecting the refresh token afterwards returns
`active:false`, but access tokens issued by later refresh grants are
not covered by the cascade. -/
theorem revoke_refresh_cascades_only_to_entry_token_id
    (now : Nat) (st : Store) (rt cid tid : String)
    (e : RefreshTokenEntry) (t0 t : Token)
    (he : st.getRefreshToken rt = some e)
    (hcid : e.client_id = cid)
    (ht0 : st.getToken e.token_id = some t0)
    (hid : t0.token_id = e.token_id)
    (ht : st.getToken tid = some t)
    (hne : tid ≠ e.token_id) :
    (revokeRefreshToken st rt cid).1 = true ∧
    (revokeRefreshToken st rt cid).2.getRefreshToken rt = some { e with revoked := true } ∧
    (revokeRefreshToken st rt cid).2.getToken e.token_id = some { t0 with revoked := true } ∧
    (revokeRefreshToken st rt cid).2.getToken tid = some t ∧
    introspectRefreshToken now (revokeRefreshToken st rt cid).2 rt cid = .inactive := by
  have heKV : lookupKV rt st.refreshTokens = some e := by
    simpa [Store.getRefreshToken] using he
  have ht0KV : lookupKV e.token_id st.tokens = some t0 := by
    simpa [Store.getToken] using ht0
  have htKV : lookupKV tid st.tokens = some t := by
    simpa [Store.getToken] using ht
  have hrun :
      revokeRefreshToken st rt cid
        = (true,
           { st with
             refreshTokens := setKV rt { e with revoked := true } st.refreshTokens,
             tokens := setKV e.token_id { t0 with revoked := true } st.tokens }) := by
    simp [revokeRefreshToken, Store.getRefreshToken, Store.getToken, Store.revokeToken,
      Store.revokeRefreshToken, heKV, hcid, ht0KV, hid]
  rw [hrun]
  refine ⟨rfl, ?_, ?_, ?_, ?_⟩
  · simp [Store.getRefreshToken, lookupKV_setKV_self]
  · simp [Store.getToken, lookupKV_setKV_self]
  · simp [Store.getToken, lookupKV_setKV_ne _ _ _ _ hne, htKV]
  · simp [introspectRefreshToken, Store.getRefreshToken, lookupKV_setKV_self]

/-- Witness for C1 (amended) at concrete inputs: in the post-refresh
store `stC1w`, revoking `rt_1` revokes the entry and `tok_0` but leaves
the refresh-issued `tok_1` intact. -/
theorem revoke_refresh_cascades_only_to_entry_token_id_witness :
    (revokeRefreshToken Fx.stC1w "rt_1" "client_1").1 = true ∧
    (revokeRefreshToken Fx.stC1w "rt_1" "client_1").2.getRefreshToken "rt_1"
      = some { Fx.rte1 with revoked := true } ∧
    (revokeRefreshToken Fx.stC1w "rt_1" "client_1").2.getToken Fx.rte1.token_id
      = some { Fx.tok0 with revoked := true } ∧
    (revokeRefreshToken Fx.stC1w "rt_1" "client_1").2.getToken "tok_1" = some Fx.tok1 ∧
    introspectRefreshToken 1000000 (revokeRefreshToken Fx.stC1w "rt_1" "client_1").2
      "rt_1" "client_1" = .inactive :=
  revoke_refresh_cascades_only_to_entry_token_id 1000000 Fx.stC1w "rt_1" "client_1"
    "tok_1" Fx.rte1 Fx.tok0 Fx.tok1 (by decide) (by decide) (by decide) (by decide)
    (by decide) (by decide)

/-- C8 (amended): a Token created by the authorization-code grant
satisfies both `access_expires_at > created_at` and
`refresh_expires_at ≥ access_expires_at`.  A Token created by the
refresh grant satisfies `access_expires_at > created_at`, but its
`refresh_token_expires_at` is the presented entry's preserved
`expires_at`, so `refresh_expires_at ≥ access_expires_at` holds only
when the refresh token still has at least the access-token TTL of life
left — a refresh inside that final window violates the invariant. -/
theorem token_expiry_field_relations
    (vs : String → String → Bool) (sha : String → String)
    (nowA nowR : Nat) (tid atk rtv ntid natk : String)
    (p : CodeGrantParams) (q : RefreshGrantParams) (stA stR : Store)
    (clientA clientR : Client) (rid : String) (r : AuthRequest)
    (e : RefreshTokenEntry) (orig : Token)
    (htc : otruthy p.code = true) (htv : otruthy p.code_verifier = true)
    (hti : otruthy p.client_id = true) (hts : otruthy p.client_secret = true)
    (hclientA : stA.getClient (p.client_id.getD "") = some clientA)
    (hvsA : vs (p.client_secret.getD "") clientA.client_secret_hash = true)
    (hbind : stA.getAuthCodeRequestId (p.code.getD "") = some rid)
    (hreq : stA.getAuthRequest rid = some r)
    (hmatch : r.code = some (p.code.getD ""))
    (hcidA : r.client_id = p.client_id.getD "")
    (hpkce : validatePKCE sha (p.code_verifier.getD "") r.code_challenge
        r.code_challenge_method = true)
    (hnexpA : ¬ r.expires_at < nowA)
    (hagent : otruthy r.agent_id = true) (hmodel : otruthy r.model = true)
    (hq1 : otruthy q.refresh_token = true) (hq2 : otruthy q.client_id = true)
    (hq3 : otruthy q.client_secret = true)
    (hclientR : stR.getClient (q.client_id.getD "") = some clientR)
    (hvsR : vs (q.client_secret.getD "") clientR.client_secret_hash = true)
    (hrt : stR.getRefreshToken (q.refresh_token.getD "") = some e)
    (hnrev : e.revoked = false)
    (hnexpR : ¬ e.expires_at < nowR)
    (hcidR : e.client_id = q.client_id.getD "")
    (horig : stR.getToken e.token_id = some orig) :
    ((handleAuthorizationCodeGrant vs sha nowA tid atk rtv p stA).2.getToken tid).map
        (fun t => decide (t.created_at < t.access_token_expires_at)) = some true ∧
    ((handleAuthorizationCodeGrant vs sha nowA tid atk rtv p stA).2.getToken tid).map
        (fun t => decide (t.access_token_expires_at ≤ t.refresh_token_expires_at.getD 0))
      = some true ∧
    ((handleRefreshTokenGrant vs nowR ntid natk q stR).2.getToken ntid).map
        (fun t => decide (t.created_at < t.access_token_expires_at)) = some true ∧
    ((handleRefreshTokenGrant vs nowR ntid natk q stR).2.getToken ntid).map
        Token.refresh_token_expires_at = some (some e.expires_at) := by
  have hrunA :
      ((handleAuthorizationCodeGrant vs sha nowA tid atk rtv p stA).2.getToken tid)
        = some
          { token_id := tid
            access_token := atk
            refresh_token := some rtv
            agent_id := r.agent_id.getD ""
            client_id := p.client_id.getD ""
            model := r.model.getD ""
            scope := r.scope
            access_token_expires_at := nowA + ACCESS_TOKEN_EXPIRES_IN * 1000
            refresh_token_expires_at := some (nowA + REFRESH_TOKEN_EXPIRES_IN * 1000)
            created_at := nowA
            revoked := false } := by
    simp [handleAuthorizationCodeGrant, htc, htv, hti, hts, hclientA, hvsA, hbind, hreq,
      hmatch, hcidA, hpkce, hnexpA, hagent, hmodel, Store.deleteAuthRequest,
      Store.deleteAuthCode, Store.createRefreshToken, Store.createToken, Store.getToken,
      lookupKV_setKV_self]
  have hrunR :
      ((handleRefreshTokenGrant vs nowR ntid natk q stR).2.getToken ntid)
        = some
          { token_id := ntid
            access_token := natk
            refresh_token := some (q.refresh_token.getD "")
            agent_id := e.agent_id
            client_id := q.client_id.getD ""
            model := orig.model
            scope := orig.scope
            access_token_expires_at := nowR + ACCESS_TOKEN_EXPIRES_IN * 1000
            refresh_token_expires_at := some e.expires_at
            created_at := nowR
            revoked := false } := by
    have horigKV : lookupKV e.token_id stR.tokens = some orig := by
      simpa [Store.getToken] using horig
    simp [handleRefreshTokenGrant, hq1, hq2, hq3, hclientR, hvsR, hrt, hnrev, hnexpR,
      hcidR, horigKV, Store.createToken, Store.getToken, lookupKV_setKV_self]
  rw [hrunA, hrunR]
  refine ⟨?_, ?_, ?_, rfl⟩
  · simp [ACCESS_TOKEN_EXPIRES_IN]
  · simp [ACCESS_TOKEN_EXPIRES_IN, REFRESH_TOKEN_EXPIRES_IN]
  · simp [ACCESS_TOKEN_EXPIRES_IN]

/-- Witness for C8 (amended) at concrete inputs: the code grant on
`stC2` and the near-expiry refresh grant on `stC8`. -/
theorem token_expiry_field_relations_witness :
    ((handleAuthorizationCodeGrant Fx.vsEq Fx.shaFx 1000 "tok_0" "AT0" "rt_1"
        { code := some "code_abc", code_verifier := some "goodv",
          client_id := some "client_1", client_secret := some "sec" }
        Fx.stC2).2.getToken "tok_0").map
        (fun t => decide (t.created_at < t.access_token_expires_at)) = some true ∧
    ((handleAuthorizationCodeGrant Fx.vsEq Fx.shaFx 1000 "tok_0" "AT0" "rt_1"
        { code := some "code_abc", code_verifier := some "goodv",
          client_id := some "client_1", client_secret := some "sec" }
        Fx.stC2).2.getToken "tok_0").map
        (fun t => decide (t.access_token_expires_at ≤ t.refresh_token_expires_at.getD 0))
      = some true ∧
    ((handleRefreshTokenGrant Fx.vsEq 1000000 "tok_1" "AT1"
        { refresh_token := some "rt_1", client_id := some "client_1",
          client_secret := some "sec" } Fx.stC8).2.getToken "tok_1").map
        (fun t => decide (t.created_at < t.access_token_expires_at)) = some true ∧
    ((handleRefreshTokenGrant Fx.vsEq 1000000 "tok_1" "AT1"
        { refresh_token := some "rt_1", client_id := some "client_1",
          client_secret := some "sec" } Fx.stC8).2.getToken "tok_1").map
        Token.refresh_token_expires_at = some (some Fx.rte8.expires_at) :=
  token_expiry_field_relations Fx.vsEq Fx.shaFx 1000 1000000 "tok_0" "AT0" "rt_1"
    "tok_1" "AT1"
    { code := some "code_abc", code_verifier := some "goodv",
      client_id := some "client_1", client_secret := some "sec" }
    { refresh_token := some "rt_1", client_id := some "client_1",
      client_secret := some "sec" }
    Fx.stC2 Fx.stC8 Fx.clientW Fx.clientW "req_1" Fx.reqC2 Fx.rte8 Fx.tok0
    (by decide) (by decide) (by decide) (by decide) (by decide) (by decide) (by decide)
    (by decide) (by decide) (by decide) (by decide) (by decide) (by decide) (by decide)
    (by decide) (by decide) (by decide) (by decide) (by decide) (by decide) (by decide)
    (by decide) (by decide) (by decide)

end AuthAgent
